import Mathlib

/-!
Verification of the Instagram post creation workflow (orchestration core and
agent capability boundaries), shallow-embedded from `src/workflow.py`,
`src/researcher_agent.py`, `src/drafter_agent.py` and `src/editor_agent.py`.

External calls (the Tavily search and the three `llm.invoke` call sites) are
modelled as components of an `Env` record.  A call to `llm.invoke` may raise,
which is modelled as `Except.error`; everything the Python code computes after
the call returns is modelled as total Lean code.  The JSON-parsing of an LLM
response is modelled by an inductive type whose constructors correspond
exactly to the `try`/`except` branches of the source: `json.loads` raising
`JSONDecodeError`, any other exception inside the `try` block (for the
drafter this includes the `ValueError` raised when the `"slides"` key is
missing), and a successful parse.  The nested `post_data["post"]["slides"]`
list is flattened into a `slides` field of the draft artifact.
-/

namespace InstagramAgents

/-- One carousel slide as parsed from the drafter LLM's JSON
(`page_number`, `title`, `content`, `layout`). -/
structure Slide where
  page_number : Int
  title : String
  content : String
  layout : String
deriving Repr, DecidableEq

/-- The research artifact returned by `ResearcherAgent.research`:
`{"topic", "research_content", "focus_areas", "word_count"}`. -/
structure ResearchData where
  topic : String
  research_content : String
  focus_areas : Option String
  word_count : Nat
deriving Repr, DecidableEq

/-- The draft artifact returned by `DrafterAgent.draft_post`:
`{"topic", "post": {"slides": [...]}, "slide_count", "error"?}`.
The `error` key is present exactly on the failure paths. -/
structure PostData where
  topic : String
  slides : List Slide
  slide_count : Nat
  error : Option String
deriving Repr, DecidableEq

/-- The decision record returned by `EditorInChiefAgent.review_post`:
`{"decision", "feedback", "specific_issues", "suggestions"}`. -/
structure ReviewDecision where
  decision : String
  feedback : String
  specific_issues : List String
  suggestions : List String
deriving Repr, DecidableEq

/-- Outcome of parsing the drafter LLM's response content, mirroring the
`try`/`except` structure of `DrafterAgent.draft_post`: `malformed e` is
`json.loads` raising `JSONDecodeError e`; `badShape e` is any other
exception raised inside the `try` block (in particular the
`ValueError("Response does not contain 'slides' key")`); `slides ss` is a
successful parse yielding the slide list. -/
inductive DraftResponse where
  | malformed (err : String)
  | badShape (err : String)
  | slides (ss : List Slide)
deriving Repr, DecidableEq

/-- Outcome of parsing the editor LLM's response content, mirroring the
`try`/`except` structure of `EditorInChiefAgent.review_post`:
`malformed e` is a `JSONDecodeError`; `badShape e` is any other exception
inside the `try` block; `parsed d fb iss sug` is a successfully parsed
decision dictionary carrying decision kind `d`. -/
inductive ReviewResponse where
  | malformed (err : String)
  | badShape (err : String)
  | parsed (decision : String) (feedback : String)
      (specific_issues : List String) (suggestions : List String)
deriving Repr, DecidableEq

/-- The external world: the Tavily search (total, because `search_topic`
absorbs every exception of the search call into an error string, so an
arbitrary total function covers all behaviours) and the three `llm.invoke`
call sites, each of which may raise (`Except.error`).  `maxSlides` is the
drafter's `max_slides` configuration value. -/
structure Env where
  maxSlides : Nat
  search : String → String
  researchLLM : String → Option String → String → Except String String
  draftLLM : ResearchData → Option String → Except String DraftResponse
  reviewLLM : PostData → ResearchData → Except String ReviewResponse

/-- `len(content.split())` -- Python `str.split()` with no separator splits
on whitespace runs and drops empty pieces. -/
def countWords (s : String) : Nat :=
  ((s.split Char.isWhitespace).filter (· ≠ "")).length

namespace ResearcherAgent

/-- `ResearcherAgent.search_topic`: builds the query (`focus_areas` is
appended only when truthy, i.e. present and non-empty) and runs the search;
all search exceptions are absorbed into the returned string, so the result
is total. -/
def search_topic (env : Env) (topic : String) (focus_areas : Option String) :
    String :=
  let query :=
    match focus_areas with
    | none => topic
    | some f => if f = "" then topic else topic ++ " " ++ f
  env.search query

/-- `ResearcherAgent.research`: searches, then calls `llm.invoke` (not
wrapped in any `try`/`except`, so an exception there propagates) and packs
the response content into the research artifact. -/
def research (env : Env) (topic : String) (focus_areas : Option String) :
    Except String ResearchData :=
  let search_results := search_topic env topic focus_areas
  match env.researchLLM topic focus_areas search_results with
  | .error e => .error e
  | .ok content =>
      .ok { topic := topic, research_content := content,
            focus_areas := focus_areas, word_count := countWords content }

end ResearcherAgent

namespace DrafterAgent

/-- The fallback slide built on both error paths of `draft_post`. -/
def errorSlide (msg : String) : Slide :=
  { page_number := 1, title := "Error", content := msg,
    layout := "Error message" }

/-- The post-response part of `DrafterAgent.draft_post`: the `try` block
that parses the LLM content, truncates the slide list to `max_slides`, and
the two `except` handlers that build a one-slide fallback artifact. -/
def parseDraft (maxSlides : Nat) (research_data : ResearchData)
    (resp : DraftResponse) : PostData :=
  match resp with
  | .slides ss =>
      let ss := ss.take maxSlides
      { topic := research_data.topic, slides := ss,
        slide_count := ss.length, error := none }
  | .malformed e =>
      { topic := research_data.topic,
        slides := [errorSlide ("Failed to generate post. Error: " ++ e)],
        slide_count := 1, error := some e }
  | .badShape e =>
      { topic := research_data.topic,
        slides := [errorSlide ("Unexpected error: " ++ e)],
        slide_count := 1, error := some e }

/-- `DrafterAgent.draft_post`: calls `llm.invoke` (outside the `try` block,
so an exception there propagates) and then parses the response, absorbing
every parse failure into a fallback artifact. -/
def draft_post (env : Env) (research_data : ResearchData)
    (revision_feedback : Option String) : Except String PostData :=
  match env.draftLLM research_data revision_feedback with
  | .error e => .error e
  | .ok resp => .ok (parseDraft env.maxSlides research_data resp)

end DrafterAgent

namespace EditorInChiefAgent

/-- `valid_decisions` from `EditorInChiefAgent.review_post`. -/
def valid_decisions : List String := ["approve", "revise_research", "revise_draft"]

/-- The post-response part of `EditorInChiefAgent.review_post`: a parsed
decision outside `valid_decisions` is coerced to `revise_draft` keeping the
other fields; the `JSONDecodeError` handler and the generic exception
handler each return a fixed `revise_draft` record. -/
def parseReview (resp : ReviewResponse) : ReviewDecision :=
  match resp with
  | .parsed d fb iss sug =>
      if valid_decisions.contains d then
        { decision := d, feedback := fb, specific_issues := iss,
          suggestions := sug }
      else
        { decision := "revise_draft", feedback := fb,
          specific_issues := iss, suggestions := sug }
  | .malformed _ =>
      { decision := "revise_draft",
        feedback := "Failed to parse review. Please improve the post quality.",
        specific_issues := ["Review parsing error"],
        suggestions := ["Ensure content meets quality standards"] }
  | .badShape e =>
      { decision := "revise_draft",
        feedback := "Error during review: " ++ e,
        specific_issues := [e], suggestions := [] }

/-- `EditorInChiefAgent.review_post`: calls `llm.invoke` (outside the `try`
block, so an exception there propagates) and then parses and normalizes the
response, absorbing every parse failure into a `revise_draft` record. -/
def review_post (env : Env) (post_data : PostData)
    (research_data : ResearchData) : Except String ReviewDecision :=
  match env.reviewLLM post_data research_data with
  | .error e => .error e
  | .ok resp => .ok (parseReview resp)

/-- `EditorInChiefAgent.execute_action`: dispatch on the decision kind.  The
decision dictionary may be absent (`none` models the initial empty dict, in
which case `.get("decision")` yields `None`). -/
def execute_action (env : Env) (review_decision : Option ReviewDecision)
    (research_data : ResearchData) (post_data : PostData) (topic : String) :
    Except String (ResearchData × PostData) :=
  let decision : Option String := review_decision.map (·.decision)
  let feedback : String :=
    match review_decision with | none => "" | some r => r.feedback
  let suggestions : List String :=
    match review_decision with | none => [] | some r => r.suggestions
  if decision = some "approve" then
    .ok (research_data, post_data)
  else if decision = some "revise_research" then
    let focus_areas :=
      if suggestions.isEmpty then feedback else " ".intercalate suggestions
    match ResearcherAgent.research env topic (some focus_areas) with
    | .error e => .error e
    | .ok updated_research =>
        match DrafterAgent.draft_post env updated_research none with
        | .error e => .error e
        | .ok updated_post => .ok (updated_research, updated_post)
  else if decision = some "revise_draft" then
    let revision_feedback :=
      feedback ++ "\n\nSpecific suggestions:\n" ++
        "\n".intercalate (suggestions.map (fun s => "- " ++ s))
    match DrafterAgent.draft_post env research_data (some revision_feedback) with
    | .error e => .error e
    | .ok updated_post => .ok (research_data, updated_post)
  else
    .ok (research_data, post_data)

end EditorInChiefAgent

namespace InstagramWorkflow

/-- The `WorkflowState` TypedDict threaded through the graph.
`review_decision = none` models the initial empty dict `{}` (the router's
`.get("decision", "revise_draft")` then yields the default).  The
`messages` log is observability only and never read by control logic, so it
is not modelled. -/
structure WorkflowState where
  topic : String
  research_data : ResearchData
  post_data : PostData
  review_decision : Option ReviewDecision
  iteration : Nat
  max_iterations : Nat
  final_post : PostData
deriving Repr, DecidableEq

/-- `InstagramWorkflow.research_node`: runs research (no focus) and stores
the research artifact. -/
def research_node (env : Env) (s : WorkflowState) : Except String WorkflowState :=
  match ResearcherAgent.research env s.topic none with
  | .error e => .error e
  | .ok rd => .ok { s with research_data := rd }

/-- `InstagramWorkflow.draft_node`: drafts from the current research (no
revision feedback) and stores the draft artifact. -/
def draft_node (env : Env) (s : WorkflowState) : Except String WorkflowState :=
  match DrafterAgent.draft_post env s.research_data none with
  | .error e => .error e
  | .ok pd => .ok { s with post_data := pd }

/-- `InstagramWorkflow.review_node`: obtains a decision, stores it, and
increments `iteration` by exactly one. -/
def review_node (env : Env) (s : WorkflowState) : Except String WorkflowState :=
  match EditorInChiefAgent.review_post env s.post_data s.research_data with
  | .error e => .error e
  | .ok d =>
      .ok { s with review_decision := some d, iteration := s.iteration + 1 }

/-- `InstagramWorkflow.revise_node`: dispatches the stored decision through
`execute_action` and stores the updated artifact pair; `iteration` is not
touched. -/
def revise_node (env : Env) (s : WorkflowState) : Except String WorkflowState :=
  match EditorInChiefAgent.execute_action env s.review_decision
      s.research_data s.post_data s.topic with
  | .error e => .error e
  | .ok (r, p) => .ok { s with research_data := r, post_data := p }

/-- `InstagramWorkflow.finalize_node`: copies the current draft artifact
into `final_post`. -/
def finalize_node (s : WorkflowState) : WorkflowState :=
  { s with final_post := s.post_data }

/-- `InstagramWorkflow.review_decision_router`: the max-iterations check
comes first and overrides the decision value; otherwise `approve` routes to
the label `"approved"` and everything else to `"revise"`.  A missing
decision dict defaults to `"revise_draft"`. -/
def review_decision_router (s : WorkflowState) : String :=
  let decision :=
    match s.review_decision with
    | none => "revise_draft"
    | some r => r.decision
  if s.iteration ≥ s.max_iterations then "max_iterations"
  else if decision = "approve" then "approved"
  else "revise"

/-- The `review → (router) → {finalize, revise}` / `revise → review` part of
the compiled graph, entered just before a review.  The conditional edges map
`"approved"` and `"max_iterations"` to `finalize` and `"revise"` to
`revise`.  The returned `Nat` counts the review-node executions.
Termination is by the measure `max_iterations - iteration`, which the
revise edge strictly decreases because review increments `iteration` and
the router only emits `"revise"` below the limit. -/
def review_loop (env : Env) (s : WorkflowState) :
    Except String (WorkflowState × Nat) :=
  match hrev : review_node env s with
  | .error e => .error e
  | .ok s1 =>
      if hr : review_decision_router s1 = "revise" then
        match hact : revise_node env s1 with
        | .error e => .error e
        | .ok s2 =>
            match review_loop env s2 with
            | .error e => .error e
            | .ok (sf, n) => .ok (sf, n + 1)
      else
        .ok (finalize_node s1, 1)
termination_by s.max_iterations - s.iteration
decreasing_by
  have h1 : s1.iteration = s.iteration + 1 ∧
      s1.max_iterations = s.max_iterations := by
    unfold review_node at hrev
    rcases hq : EditorInChiefAgent.review_post env s.post_data s.research_data
      with e | d
    · rw [hq] at hrev; exact absurd hrev (by simp)
    · rw [hq] at hrev
      injection hrev with hrev
      subst hrev
      exact ⟨rfl, rfl⟩
  have h2 : s2.iteration = s1.iteration ∧
      s2.max_iterations = s1.max_iterations := by
    unfold revise_node at hact
    rcases hq : EditorInChiefAgent.execute_action env s1.review_decision
        s1.research_data s1.post_data s1.topic with e | rp
    · rw [hq] at hact; exact absurd hact (by simp)
    · rw [hq] at hact
      injection hact with hact
      subst hact
      exact ⟨rfl, rfl⟩
  have h3 : ¬ s1.iteration ≥ s1.max_iterations := by
    intro hge
    unfold review_decision_router at hr
    rw [if_pos hge] at hr
    exact absurd hr (by decide)
  omega

/-- The initial state built by `InstagramWorkflow.run`; the empty dicts are
modelled by inert default records. -/
def initial_state (max_iterations : Nat) (topic : String) : WorkflowState :=
  { topic := topic
    research_data := { topic := "", research_content := "",
                       focus_areas := none, word_count := 0 }
    post_data := { topic := "", slides := [], slide_count := 0, error := none }
    review_decision := none
    iteration := 0
    max_iterations := max_iterations
    final_post := { topic := "", slides := [], slide_count := 0, error := none } }

/-- The full compiled graph run from the entry point:
`research → draft → review_loop`.  The `Nat` counts review-node executions. -/
def run_core (env : Env) (max_iterations : Nat) (topic : String) :
    Except String (WorkflowState × Nat) :=
  match research_node env (initial_state max_iterations topic) with
  | .error e => .error e
  | .ok s1 =>
      match draft_node env s1 with
      | .error e => .error e
      | .ok s2 => review_loop env s2

/-- The dictionary returned by `InstagramWorkflow.run` (the `messages` log
is not modelled). -/
structure RunResult where
  final_post : PostData
  iterations : Nat
  research_data : ResearchData
deriving Repr, DecidableEq

/-- `InstagramWorkflow.run`: invoke the compiled graph on the initial state
and project the result dictionary.  An exception raised by any unguarded
`llm.invoke` call site propagates to the caller as `Except.error`. -/
def run (env : Env) (max_iterations : Nat) (topic : String) :
    Except String RunResult :=
  match run_core env max_iterations topic with
  | .error e => .error e
  | .ok (sf, _) =>
      .ok { final_post := sf.final_post, iterations := sf.iteration,
            research_data := sf.research_data }

/-- The number of review-node executions a run performs (ghost observation
of `run_core`, used to state the termination property). -/
def run_review_steps (env : Env) (max_iterations : Nat) (topic : String) :
    Except String Nat :=
  match run_core env max_iterations topic with
  | .error e => .error e
  | .ok (_, n) => .ok n

end InstagramWorkflow

namespace InstagramWorkflow

/-- The guidance string built on the `revise_draft` branch of
`execute_action`. -/
def revise_draft_guidance (rd : ReviewDecision) : String :=
  rd.feedback ++ "\n\nSpecific suggestions:\n" ++
    "\n".intercalate (rd.suggestions.map (fun s => "- " ++ s))

/-- The focus string built on the `revise_research` branch of
`execute_action`. -/
def revise_research_focus (rd : ReviewDecision) : String :=
  if rd.suggestions.isEmpty then rd.feedback
  else " ".intercalate rd.suggestions

end InstagramWorkflow

/-- A concrete slide used by the concrete test environments below. -/
def slide1 : Slide :=
  { page_number := 1, title := "Intro", content := "Body", layout := "Plain" }

/-- A concrete fully-working environment whose reviewer always returns the
decision `revise_draft`. -/
def stubEnv : Env :=
  { maxSlides := 10
    search := fun _ => "search results"
    researchLLM := fun _ _ _ => .ok "research content"
    draftLLM := fun _ _ => .ok (.slides [slide1])
    reviewLLM := fun _ _ => .ok (.parsed "revise_draft" "needs work" [] []) }

/-- Like `stubEnv` but the researcher's `llm.invoke` raises. -/
def researchCrashEnv : Env :=
  { stubEnv with researchLLM := fun _ _ _ => .error "llm failure" }

/-- Like `stubEnv` but the drafter's `llm.invoke` raises. -/
def draftCrashEnv : Env :=
  { stubEnv with draftLLM := fun _ _ => .error "llm failure" }

/-- Like `stubEnv` but the reviewer returns the invalid decision kind
`"maybe"`. -/
def maybeReviewEnv : Env :=
  { stubEnv with reviewLLM := fun _ _ => .ok (.parsed "maybe" "feedback" [] []) }

/-- Like `stubEnv` but the drafter LLM returns unparseable content. -/
def badJsonDraftEnv : Env :=
  { stubEnv with draftLLM := fun _ _ => .ok (.malformed "bad json") }

/-- A concrete research artifact. -/
def researchStub : ResearchData :=
  { topic := "Random Forests", research_content := "content",
    focus_areas := none, word_count := 1 }

/-- A concrete draft artifact with no slides. -/
def postStub : PostData :=
  { topic := "Random Forests", slides := [], slide_count := 0, error := none }

/-- A concrete workflow state before any review. -/
def state0 : InstagramWorkflow.WorkflowState :=
  { topic := "Random Forests", research_data := researchStub,
    post_data := postStub, review_decision := none, iteration := 0,
    max_iterations := 3, final_post := postStub }

/-- The state produced from `state0` by one review step under `stubEnv`. -/
def state0rev : InstagramWorkflow.WorkflowState :=
  { state0 with
    review_decision := some
      { decision := "revise_draft", feedback := "needs work",
        specific_issues := [], suggestions := [] },
    iteration := 1 }

/-- The state produced from `state0rev` by one revise step under `stubEnv`. -/
def state0revised : InstagramWorkflow.WorkflowState :=
  { state0rev with
    post_data := { topic := "Random Forests", slides := [slide1],
                   slide_count := 1, error := none } }

/-- A concrete state whose iteration count has passed the limit while the
reviewer asked for more research. -/
def limitState : InstagramWorkflow.WorkflowState :=
  { state0 with
    review_decision := some
      { decision := "revise_research", feedback := "dig deeper",
        specific_issues := [], suggestions := [] },
    iteration := 5, max_iterations := 3 }

namespace InstagramWorkflow

/-- Unfolding lemma: when the router does not emit `"revise"`, the loop
finalizes after the one review it just performed. -/
theorem review_loop_finalize (env : Env) (s s1 : WorkflowState)
    (h1 : review_node env s = .ok s1)
    (h2 : review_decision_router s1 ≠ "revise") :
    review_loop env s = .ok (finalize_node s1, 1) := by
  rw [review_loop]
  split
  · rename_i e he
    rw [he] at h1
    exact absurd h1 (by simp)
  · rename_i s1' hs1'
    rw [hs1'] at h1
    injection h1 with h
    subst h
    rw [dif_neg h2]

/-- Unfolding lemma: when the router emits `"revise"` and the revise node
succeeds, the loop recurses on the revised state with one more review
counted. -/
theorem review_loop_revise (env : Env) (s s1 s2 : WorkflowState)
    (h1 : review_node env s = .ok s1)
    (h2 : review_decision_router s1 = "revise")
    (h3 : revise_node env s1 = .ok s2) :
    review_loop env s =
      match review_loop env s2 with
      | .error e => .error e
      | .ok (sf, n) => .ok (sf, n + 1) := by
  rw [review_loop]
  split
  · rename_i e he
    rw [he] at h1
    exact absurd h1 (by simp)
  · rename_i s1' hs1'
    rw [hs1'] at h1
    injection h1 with h
    subst h
    rw [dif_pos h2]
    split
    · rename_i e he
      rw [he] at h3
      exact absurd h3 (by simp)
    · rename_i s2' hs2'
      rw [hs2'] at h3
      injection h3 with h
      subst h
      rfl

/-- A successful review node is exactly a successful `review_post` whose
decision is stored while `iteration` is incremented by one. -/
theorem review_node_ok_elim (env : Env) (s s1 : WorkflowState)
    (h : review_node env s = .ok s1) :
    ∃ d, EditorInChiefAgent.review_post env s.post_data s.research_data = .ok d ∧
      s1 = { s with review_decision := some d, iteration := s.iteration + 1 } := by
  unfold review_node at h
  rcases hq : EditorInChiefAgent.review_post env s.post_data s.research_data
    with e | d
  · rw [hq] at h
    exact absurd h (by simp)
  · rw [hq] at h
    injection h with h
    exact ⟨d, rfl, h.symm⟩

/-- A successful revise node is exactly a successful `execute_action` whose
artifact pair is stored; no other field (in particular `iteration`) moves. -/
theorem revise_node_ok_elim (env : Env) (s s1 : WorkflowState)
    (h : revise_node env s = .ok s1) :
    ∃ r p, EditorInChiefAgent.execute_action env s.review_decision
        s.research_data s.post_data s.topic = .ok (r, p) ∧
      s1 = { s with research_data := r, post_data := p } := by
  unfold revise_node at h
  rcases hq : EditorInChiefAgent.execute_action env s.review_decision
      s.research_data s.post_data s.topic with e | rp
  · rw [hq] at h
    exact absurd h (by simp)
  · obtain ⟨r, p⟩ := rp
    rw [hq] at h
    injection h with h
    exact ⟨r, p, rfl, h.symm⟩

/-- The router emits `"revise"` only strictly below the iteration limit. -/
theorem router_revise_lt (s : WorkflowState)
    (h : review_decision_router s = "revise") :
    s.iteration < s.max_iterations := by
  unfold review_decision_router at h
  by_cases hge : s.iteration ≥ s.max_iterations
  · rw [if_pos hge] at h
    exact absurd h (by decide)
  · omega

/-- `ResearcherAgent.research` succeeds whenever the researcher's
`llm.invoke` call site returns. -/
theorem research_total (env : Env)
    (hres : ∀ t f sr, ∃ c, env.researchLLM t f sr = .ok c)
    (topic : String) (focus_areas : Option String) :
    ∃ rd, ResearcherAgent.research env topic focus_areas = .ok rd := by
  unfold ResearcherAgent.research
  dsimp only
  obtain ⟨c, hc⟩ := hres topic focus_areas
    (ResearcherAgent.search_topic env topic focus_areas)
  rw [hc]
  exact ⟨_, rfl⟩

/-- `DrafterAgent.draft_post` succeeds whenever the drafter's `llm.invoke`
call site returns, no matter how malformed the returned content is. -/
theorem draft_post_total (env : Env)
    (hdr : ∀ r g, ∃ resp, env.draftLLM r g = .ok resp)
    (research_data : ResearchData) (g : Option String) :
    ∃ pd, DrafterAgent.draft_post env research_data g = .ok pd := by
  unfold DrafterAgent.draft_post
  obtain ⟨resp, hresp⟩ := hdr research_data g
  rw [hresp]
  exact ⟨_, rfl⟩

/-- Reduction: dispatching an absent decision dict is a no-op. -/
theorem execute_action_none (env : Env) (research_data : ResearchData)
    (post_data : PostData) (topic : String) :
    EditorInChiefAgent.execute_action env none research_data post_data topic =
      .ok (research_data, post_data) := rfl

/-- Reduction: dispatching `approve` is a pass-through. -/
theorem execute_action_approve (env : Env) (rd : ReviewDecision)
    (research_data : ResearchData) (post_data : PostData) (topic : String)
    (h : rd.decision = "approve") :
    EditorInChiefAgent.execute_action env (some rd) research_data post_data
      topic = .ok (research_data, post_data) := by
  unfold EditorInChiefAgent.execute_action
  simp only [Option.map_some']
  rw [h]
  rw [if_pos rfl]

/-- Reduction: dispatching `revise_draft` calls the drafter on the
*existing* research artifact with the concatenated guidance string, and the
research artifact is passed through unchanged. -/
theorem execute_action_revise_draft (env : Env) (rd : ReviewDecision)
    (research_data : ResearchData) (post_data : PostData) (topic : String)
    (h : rd.decision = "revise_draft") :
    EditorInChiefAgent.execute_action env (some rd) research_data post_data
      topic =
      match DrafterAgent.draft_post env research_data
          (some (revise_draft_guidance rd)) with
      | .error e => .error e
      | .ok updated_post => .ok (research_data, updated_post) := by
  unfold EditorInChiefAgent.execute_action
  simp only [Option.map_some']
  rw [h]
  rw [if_neg (by decide), if_neg (by decide), if_pos rfl]
  rfl

/-- Reduction: dispatching `revise_research` regenerates the research with
the derived focus string and then re-drafts from the new research. -/
theorem execute_action_revise_research (env : Env) (rd : ReviewDecision)
    (research_data : ResearchData) (post_data : PostData) (topic : String)
    (h : rd.decision = "revise_research") :
    EditorInChiefAgent.execute_action env (some rd) research_data post_data
      topic =
      match ResearcherAgent.research env topic
          (some (revise_research_focus rd)) with
      | .error e => .error e
      | .ok updated_research =>
          match DrafterAgent.draft_post env updated_research none with
          | .error e => .error e
          | .ok updated_post => .ok (updated_research, updated_post) := by
  unfold EditorInChiefAgent.execute_action
  simp only [Option.map_some']
  rw [h]
  rw [if_neg (by decide), if_pos rfl]
  rfl

/-- Reduction: dispatching any other decision kind is a no-op. -/
theorem execute_action_other (env : Env) (rd : ReviewDecision)
    (research_data : ResearchData) (post_data : PostData) (topic : String)
    (h1 : rd.decision ≠ "approve") (h2 : rd.decision ≠ "revise_research")
    (h3 : rd.decision ≠ "revise_draft") :
    EditorInChiefAgent.execute_action env (some rd) research_data post_data
      topic = .ok (research_data, post_data) := by
  unfold EditorInChiefAgent.execute_action
  simp only [Option.map_some']
  rw [if_neg (fun hh => h1 (Option.some.inj hh)),
    if_neg (fun hh => h2 (Option.some.inj hh)),
    if_neg (fun hh => h3 (Option.some.inj hh))]

/-- `EditorInChiefAgent.execute_action` succeeds whenever the researcher and
drafter `llm.invoke` call sites return, for every decision record. -/
theorem execute_action_total (env : Env)
    (hres : ∀ t f sr, ∃ c, env.researchLLM t f sr = .ok c)
    (hdr : ∀ r g, ∃ resp, env.draftLLM r g = .ok resp)
    (rd : Option ReviewDecision) (research_data : ResearchData)
    (post_data : PostData) (topic : String) :
    ∃ out, EditorInChiefAgent.execute_action env rd research_data post_data
      topic = .ok out := by
  rcases rd with _ | r
  · exact ⟨_, execute_action_none env research_data post_data topic⟩
  · by_cases h1 : r.decision = "approve"
    · exact ⟨_, execute_action_approve env r research_data post_data topic h1⟩
    · by_cases h2 : r.decision = "revise_research"
      · rw [execute_action_revise_research env r research_data post_data
          topic h2]
        obtain ⟨r', hr'⟩ := research_total env hres topic
          (some (revise_research_focus r))
        obtain ⟨p', hp'⟩ := draft_post_total env hdr r' none
        exact ⟨(r', p'), by rw [hr']; dsimp only; rw [hp']⟩
      · by_cases h3 : r.decision = "revise_draft"
        · rw [execute_action_revise_draft env r research_data post_data
            topic h3]
          obtain ⟨p', hp'⟩ := draft_post_total env hdr research_data
            (some (revise_draft_guidance r))
          exact ⟨(research_data, p'), by rw [hp']⟩
        · exact ⟨_, execute_action_other env r research_data post_data topic
            h1 h2 h3⟩


theorem review_node_of_llm (env : Env) (s : WorkflowState)
    (resp : ReviewResponse)
    (hllm : env.reviewLLM s.post_data s.research_data = .ok resp) :
    review_node env s = .ok { s with
      review_decision := some (EditorInChiefAgent.parseReview resp),
      iteration := s.iteration + 1 } := by
  unfold review_node EditorInChiefAgent.review_post
  rw [hllm]

theorem parseReview_valid (d fb : String) (iss sug : List String)
    (h : EditorInChiefAgent.valid_decisions.contains d = true) :
    EditorInChiefAgent.parseReview (.parsed d fb iss sug) =
      ⟨d, fb, iss, sug⟩ := by
  unfold EditorInChiefAgent.parseReview
  dsimp only
  rw [if_pos h]

theorem review_loop_always_revise (env : Env)
    (hrev : ∀ p r, ∃ fb iss sug,
      env.reviewLLM p r = .ok (.parsed "revise_draft" fb iss sug))
    (hdr : ∀ r g, ∃ resp, env.draftLLM r g = .ok resp) :
    ∀ s, ∃ sf,
      review_loop env s = .ok (sf, max (s.max_iterations - s.iteration) 1) ∧
      sf.iteration = s.iteration + max (s.max_iterations - s.iteration) 1 ∧
      sf.max_iterations = s.max_iterations := by
  suffices H : ∀ n s, s.max_iterations - s.iteration = n →
      ∃ sf,
        review_loop env s = .ok (sf, max (s.max_iterations - s.iteration) 1) ∧
        sf.iteration = s.iteration + max (s.max_iterations - s.iteration) 1 ∧
        sf.max_iterations = s.max_iterations by
    intro s
    exact H _ s rfl
  intro n
  induction n using Nat.strong_induction_on with
  | _ n ih =>
    intro s hn
    obtain ⟨fb, iss, sug, hllm⟩ := hrev s.post_data s.research_data
    have hrn : review_node env s =
        .ok { s with
          review_decision := some ⟨"revise_draft", fb, iss, sug⟩,
          iteration := s.iteration + 1 } := by
      have h := review_node_of_llm env s _ hllm
      rw [parseReview_valid _ _ _ _ (by decide)] at h
      exact h
    by_cases hlim : s.iteration + 1 ≥ s.max_iterations
    · have hmax1 : max (s.max_iterations - s.iteration) 1 = 1 := by omega
      have hrt : review_decision_router { s with
          review_decision := some ⟨"revise_draft", fb, iss, sug⟩,
          iteration := s.iteration + 1 } = "max_iterations" := by
        unfold review_decision_router
        dsimp only
        rw [if_pos hlim]
      have hloop := review_loop_finalize env s _ hrn (by rw [hrt]; decide)
      refine ⟨finalize_node { s with
          review_decision := some ⟨"revise_draft", fb, iss, sug⟩,
          iteration := s.iteration + 1 }, ?_, ?_, ?_⟩
      · rw [hloop, hmax1]
      · simp only [finalize_node]
        omega
      · simp only [finalize_node]
    · have hrt : review_decision_router { s with
          review_decision := some ⟨"revise_draft", fb, iss, sug⟩,
          iteration := s.iteration + 1 } = "revise" := by
        unfold review_decision_router
        dsimp only
        rw [if_neg hlim, if_neg (by decide)]
      obtain ⟨resp, hdllm⟩ := hdr s.research_data
        (some (revise_draft_guidance ⟨"revise_draft", fb, iss, sug⟩))
      have hdp : DrafterAgent.draft_post env s.research_data
          (some (revise_draft_guidance ⟨"revise_draft", fb, iss, sug⟩)) =
          .ok (DrafterAgent.parseDraft env.maxSlides s.research_data resp) := by
        unfold DrafterAgent.draft_post
        rw [hdllm]
      have hact : revise_node env { s with
          review_decision := some ⟨"revise_draft", fb, iss, sug⟩,
          iteration := s.iteration + 1 } =
          .ok { s with
            review_decision := some ⟨"revise_draft", fb, iss, sug⟩,
            iteration := s.iteration + 1,
            post_data := DrafterAgent.parseDraft env.maxSlides s.research_data resp } := by
        unfold revise_node
        rw [execute_action_revise_draft _ _ _ _ _ rfl]
        dsimp only
        rw [hdp]
      obtain ⟨sf, hloop2, hit2, hmax2⟩ :=
        ih (s.max_iterations - (s.iteration + 1)) (by omega) { s with
          review_decision := some ⟨"revise_draft", fb, iss, sug⟩,
          iteration := s.iteration + 1,
          post_data := DrafterAgent.parseDraft env.maxSlides s.research_data resp }
          (by dsimp only)
      have hloop := review_loop_revise env s _ _ hrn hrt hact
      rw [hloop2] at hloop
      dsimp only at hloop hit2 hmax2
      refine ⟨sf, ?_, ?_, hmax2⟩
      · rw [hloop]
        congr 2
        omega
      · rw [hit2]
        omega

/-- `research_node` succeeds whenever the researcher LLM call returns, and
only the `research_data` field changes. -/
theorem research_node_total (env : Env)
    (hres : ∀ t f sr, ∃ c, env.researchLLM t f sr = .ok c)
    (s : WorkflowState) :
    ∃ rd, research_node env s = .ok { s with research_data := rd } := by
  obtain ⟨rd, hrd⟩ := research_total env hres s.topic none
  exact ⟨rd, by unfold research_node; rw [hrd]⟩

/-- `draft_node` succeeds whenever the drafter LLM call returns, and only
the `post_data` field changes. -/
theorem draft_node_total (env : Env)
    (hdr : ∀ r g, ∃ resp, env.draftLLM r g = .ok resp)
    (s : WorkflowState) :
    ∃ pd, draft_node env s = .ok { s with post_data := pd } := by
  obtain ⟨pd, hpd⟩ := draft_post_total env hdr s.research_data none
  exact ⟨pd, by unfold draft_node; rw [hpd]⟩

/-- The review/revise loop succeeds whenever all three `llm.invoke` call
sites return, no matter what content they return. -/
theorem review_loop_total (env : Env)
    (hrev : ∀ p r, ∃ resp, env.reviewLLM p r = .ok resp)
    (hres : ∀ t f sr, ∃ c, env.researchLLM t f sr = .ok c)
    (hdr : ∀ r g, ∃ resp, env.draftLLM r g = .ok resp) :
    ∀ s, ∃ out, review_loop env s = .ok out := by
  suffices H : ∀ n s, s.max_iterations - s.iteration = n →
      ∃ out, review_loop env s = .ok out by
    intro s
    exact H _ s rfl
  intro n
  induction n using Nat.strong_induction_on with
  | _ n ih =>
    intro s hn
    obtain ⟨resp, hllm⟩ := hrev s.post_data s.research_data
    have hrn := review_node_of_llm env s resp hllm
    by_cases hr : review_decision_router { s with
        review_decision := some (EditorInChiefAgent.parseReview resp),
        iteration := s.iteration + 1 } = "revise"
    case neg =>
      exact ⟨_, review_loop_finalize env s _ hrn hr⟩
    case pos =>
      have hlt := router_revise_lt _ hr
      dsimp only at hlt
      obtain ⟨rp, hout⟩ := execute_action_total env hres hdr
        (some (EditorInChiefAgent.parseReview resp)) s.research_data
        s.post_data s.topic
      obtain ⟨r, p⟩ := rp
      have hact : revise_node env { s with
          review_decision := some (EditorInChiefAgent.parseReview resp),
          iteration := s.iteration + 1 } = .ok { s with
            review_decision := some (EditorInChiefAgent.parseReview resp),
            iteration := s.iteration + 1,
            research_data := r, post_data := p } := by
        unfold revise_node
        dsimp only
        rw [hout]
      obtain ⟨out2, hloop2⟩ := ih (s.max_iterations - (s.iteration + 1))
        (by omega) { s with
          review_decision := some (EditorInChiefAgent.parseReview resp),
          iteration := s.iteration + 1,
          research_data := r, post_data := p } (by dsimp only)
      obtain ⟨sf, k⟩ := out2
      have hloop := review_loop_revise env s _ _ hrn hr hact
      rw [hloop2] at hloop
      exact ⟨(sf, k + 1), by rw [hloop]⟩

end InstagramWorkflow

end InstagramAgents

namespace InstagramAgents

namespace InstagramWorkflow

/-- C2: whenever the post-review iteration count has reached the limit, the
router emits the `"max_iterations"` label (which the graph maps to the
finalize node) regardless of the stored decision value, and in particular
never emits `"revise"`, so the workflow cannot enter the revise node once
the budget is exhausted. -/
theorem c2_budget_exhaustion_overrides_decision (s : WorkflowState)
    (h : s.iteration ≥ s.max_iterations) :
    review_decision_router s = "max_iterations" ∧
    review_decision_router s ≠ "revise" := by
  have hm : review_decision_router s = "max_iterations" := by
    unfold review_decision_router
    dsimp only
    rw [if_pos h]
  exact ⟨hm, by rw [hm]; decide⟩

/-- Witness for C2: a concrete over-budget state carrying a
`revise_research` decision is routed to finalize. -/
theorem c2_budget_exhaustion_witness :
    review_decision_router limitState = "max_iterations" ∧
    review_decision_router limitState ≠ "revise" :=
  c2_budget_exhaustion_overrides_decision limitState (by decide)

/-- C5: a successful review node increments `iteration` by exactly one and
stores the freshly obtained decision (the routing of the compiled graph is
then evaluated on this post-increment state), while a successful revise
node leaves `iteration` unchanged; hence `iteration` grows by exactly one
per review step and never decreases across a run. -/
theorem c5_iteration_increment_only_at_review (env : Env)
    (s s' : WorkflowState) :
    (review_node env s = .ok s' →
      s'.iteration = s.iteration + 1 ∧ ∃ d, s'.review_decision = some d) ∧
    (revise_node env s = .ok s' → s'.iteration = s.iteration) := by
  constructor
  · intro h
    obtain ⟨d, _, hs⟩ := review_node_ok_elim env s s' h
    subst hs
    exact ⟨rfl, d, rfl⟩
  · intro h
    obtain ⟨r, p, _, hs⟩ := revise_node_ok_elim env s s' h
    subst hs
    rfl

/-- Witness for C5: one concrete review step increments the counter from 0
to 1 and one concrete revise step leaves it at 1. -/
theorem c5_iteration_increment_witness :
    (state0rev.iteration = state0.iteration + 1 ∧
      ∃ d, state0rev.review_decision = some d) ∧
    state0revised.iteration = state0rev.iteration :=
  ⟨(c5_iteration_increment_only_at_review stubEnv state0 state0rev).1 rfl,
   (c5_iteration_increment_only_at_review stubEnv state0rev state0revised).2 rfl⟩

/-- C7: the finalize node sets `final_post` to the current `post_data`
without inspecting the review decision or the iteration count (so the two
termination reasons produce the same contract), and it is idempotent. -/
theorem c7_finalize_idempotent (s : WorkflowState) :
    (finalize_node s).final_post = s.post_data ∧
    finalize_node (finalize_node s) = finalize_node s :=
  ⟨rfl, rfl⟩

end InstagramWorkflow

/-- C4: every review response whose carried decision kind is not exactly one
of `approve`, `revise_research`, `revise_draft` -- including responses whose
content cannot be parsed at all -- is stored as a decision record with kind
`revise_draft`, and this coercion is not fatal: `review_post` still returns
successfully whenever the editor's `llm.invoke` call returns. -/
theorem c4_decision_normalization (resp : ReviewResponse)
    (h : match resp with
      | .parsed d _ _ _ => EditorInChiefAgent.valid_decisions.contains d = false
      | _ => True) :
    (EditorInChiefAgent.parseReview resp).decision = "revise_draft" ∧
    ∀ env p r, env.reviewLLM p r = .ok resp →
      EditorInChiefAgent.review_post env p r =
        .ok (EditorInChiefAgent.parseReview resp) := by
  constructor
  · cases resp with
    | parsed d fb iss sug =>
        unfold EditorInChiefAgent.parseReview
        dsimp only
        dsimp only at h
        rw [if_neg (by rw [h]; decide)]
    | malformed e => rfl
    | badShape e => rfl
  · intro env p r hllm
    unfold EditorInChiefAgent.review_post
    rw [hllm]

/-- Witness for C4: the invalid kind `"maybe"` is normalized to
`revise_draft` without failing the review step. -/
theorem c4_decision_normalization_witness :
    (EditorInChiefAgent.parseReview (.parsed "maybe" "feedback" [] [])).decision =
      "revise_draft" ∧
    EditorInChiefAgent.review_post maybeReviewEnv postStub researchStub =
      .ok (EditorInChiefAgent.parseReview (.parsed "maybe" "feedback" [] [])) :=
  ⟨(c4_decision_normalization (.parsed "maybe" "feedback" [] []) (by decide)).1,
   (c4_decision_normalization (.parsed "maybe" "feedback" [] []) (by decide)).2
     maybeReviewEnv postStub researchStub rfl⟩

/-- C10: the draft artifact built from any parsed drafting response reports
a `slide_count` equal to the length of its slide list (on the success path
and on both error paths), and on the success path the slide list is the
first `max_slides` slides of the parsed list, hence never longer than
`max_slides`. -/
theorem c10_slide_count_invariant (maxSlides : Nat)
    (research_data : ResearchData) (resp : DraftResponse) :
    (DrafterAgent.parseDraft maxSlides research_data resp).slide_count =
      (DrafterAgent.parseDraft maxSlides research_data resp).slides.length ∧
    ∀ ss, resp = .slides ss →
      (DrafterAgent.parseDraft maxSlides research_data resp).slides =
        ss.take maxSlides ∧
      (DrafterAgent.parseDraft maxSlides research_data resp).slides.length ≤
        maxSlides := by
  constructor
  · cases resp <;> rfl
  · intro ss h
    subst h
    constructor
    · rfl
    · dsimp only [DrafterAgent.parseDraft]
      rw [List.length_take]
      exact Nat.min_le_left _ _

/-- Witness for C10: a three-slide response is truncated to `max_slides = 2`
slides, and the count matches the list length. -/
theorem c10_slide_count_witness :
    (DrafterAgent.parseDraft 2 researchStub
        (.slides [slide1, slide1, slide1])).slide_count =
      (DrafterAgent.parseDraft 2 researchStub
        (.slides [slide1, slide1, slide1])).slides.length ∧
    (DrafterAgent.parseDraft 2 researchStub
        (.slides [slide1, slide1, slide1])).slides =
      [slide1, slide1, slide1].take 2 ∧
    (DrafterAgent.parseDraft 2 researchStub
        (.slides [slide1, slide1, slide1])).slides.length ≤ 2 :=
  ⟨(c10_slide_count_invariant 2 researchStub
      (.slides [slide1, slide1, slide1])).1,
   (c10_slide_count_invariant 2 researchStub
      (.slides [slide1, slide1, slide1])).2 [slide1, slide1, slide1] rfl⟩

end InstagramAgents

namespace InstagramAgents

/-- C6: dispatching a `revise_draft` decision invokes the drafter on the
*existing* research artifact with the concatenated guidance string and
passes the research artifact through unchanged (so any successful dispatch
returns the identical research artifact and only the draft is replaced),
while dispatching a `revise_research` decision regenerates the research
from the derived focus string and then re-drafts from the new research, so
both artifacts are replaced by freshly generated ones. -/
theorem c6_revision_isolation (env : Env) (rd : ReviewDecision)
    (research_data : ResearchData) (post_data : PostData) (topic : String) :
    (rd.decision = "revise_draft" →
      EditorInChiefAgent.execute_action env (some rd) research_data post_data
        topic =
        match DrafterAgent.draft_post env research_data
            (some (InstagramWorkflow.revise_draft_guidance rd)) with
        | .error e => .error e
        | .ok updated_post => .ok (research_data, updated_post)) ∧
    (rd.decision = "revise_draft" → ∀ r' p',
      EditorInChiefAgent.execute_action env (some rd) research_data post_data
        topic = .ok (r', p') → r' = research_data) ∧
    (rd.decision = "revise_research" →
      EditorInChiefAgent.execute_action env (some rd) research_data post_data
        topic =
        match ResearcherAgent.research env topic
            (some (InstagramWorkflow.revise_research_focus rd)) with
        | .error e => .error e
        | .ok updated_research =>
            match DrafterAgent.draft_post env updated_research none with
            | .error e => .error e
            | .ok updated_post => .ok (updated_research, updated_post)) := by
  refine ⟨?_, ?_, ?_⟩
  · intro h
    exact InstagramWorkflow.execute_action_revise_draft env rd research_data
      post_data topic h
  · intro h r' p' heq
    rw [InstagramWorkflow.execute_action_revise_draft env rd research_data
      post_data topic h] at heq
    rcases hdp : DrafterAgent.draft_post env research_data
        (some (InstagramWorkflow.revise_draft_guidance rd)) with e | p
    · rw [hdp] at heq
      exact absurd heq (by simp)
    · rw [hdp] at heq
      injection heq with hh
      exact (congrArg Prod.fst hh).symm
  · intro h
    exact InstagramWorkflow.execute_action_revise_research env rd
      research_data post_data topic h

/-- Witness for C6: concrete dispatches of `revise_draft` and
`revise_research` under the stub environment. -/
theorem c6_revision_isolation_witness :
    (EditorInChiefAgent.execute_action stubEnv
        (some ⟨"revise_draft", "fb", [], ["s1"]⟩) researchStub postStub
        "Random Forests" =
      match DrafterAgent.draft_post stubEnv researchStub
          (some (InstagramWorkflow.revise_draft_guidance
            ⟨"revise_draft", "fb", [], ["s1"]⟩)) with
      | .error e => .error e
      | .ok updated_post => .ok (researchStub, updated_post)) ∧
    (EditorInChiefAgent.execute_action stubEnv
        (some ⟨"revise_research", "fb", [], ["s1"]⟩) researchStub postStub
        "Random Forests" =
      match ResearcherAgent.research stubEnv "Random Forests"
          (some (InstagramWorkflow.revise_research_focus
            ⟨"revise_research", "fb", [], ["s1"]⟩)) with
      | .error e => .error e
      | .ok updated_research =>
          match DrafterAgent.draft_post stubEnv updated_research none with
          | .error e => .error e
          | .ok updated_post => .ok (updated_research, updated_post)) :=
  ⟨(c6_revision_isolation stubEnv ⟨"revise_draft", "fb", [], ["s1"]⟩
      researchStub postStub "Random Forests").1 rfl,
   (c6_revision_isolation stubEnv ⟨"revise_research", "fb", [], ["s1"]⟩
      researchStub postStub "Random Forests").2.2 rfl⟩

/-- C9 (counterexample): dispatching the kind `"maybe"` directly through
`execute_action` is a no-op, which differs from dispatching `revise_draft`
on the same inputs: under the stub environment the former keeps the
zero-slide draft while the latter produces a one-slide draft, so the claim
that the dispatcher treats `"maybe"` identically to `revise_draft` is
false. -/
theorem c9_dispatch_maybe_counterexample :
    EditorInChiefAgent.execute_action stubEnv
        (some ⟨"maybe", "fb", [], []⟩) researchStub postStub "t" =
      .ok (researchStub, postStub) ∧
    EditorInChiefAgent.execute_action stubEnv
        (some ⟨"revise_draft", "fb", [], []⟩) researchStub postStub "t" ≠
      EditorInChiefAgent.execute_action stubEnv
        (some ⟨"maybe", "fb", [], []⟩) researchStub postStub "t" := by
  constructor
  · rfl
  · have h1 : EditorInChiefAgent.execute_action stubEnv
        (some ⟨"revise_draft", "fb", [], []⟩) researchStub postStub "t" =
        .ok (researchStub, state0revised.post_data) := rfl
    have h2 : EditorInChiefAgent.execute_action stubEnv
        (some ⟨"maybe", "fb", [], []⟩) researchStub postStub "t" =
        .ok (researchStub, postStub) := rfl
    intro hcontra
    rw [h1, h2] at hcontra
    injection hcontra with hp
    have h3 := congrArg (fun q => (Prod.snd q).slide_count) hp
    simp [state0revised, state0rev, state0, postStub] at h3

/-- C9 (amended): dispatching the unknown kind `"maybe"` through
`execute_action` is a logged no-op leaving both artifacts unchanged; the
`"maybe"`-behaves-like-`revise_draft` equivalence instead holds at the
normalization boundary: `parseReview` maps a response carrying `"maybe"`
to exactly the record it produces for `"revise_draft"` with the same
feedback and suggestions, so a *reviewer* returning `"maybe"` leads to the
same dispatched behaviour as one returning `"revise_draft"`. -/
theorem c9_maybe_normalized_equivalence (env : Env)
    (research_data : ResearchData) (post_data : PostData) (topic : String)
    (fb : String) (iss sug : List String) :
    EditorInChiefAgent.execute_action env (some ⟨"maybe", fb, iss, sug⟩)
        research_data post_data topic = .ok (research_data, post_data) ∧
    EditorInChiefAgent.parseReview (.parsed "maybe" fb iss sug) =
      EditorInChiefAgent.parseReview (.parsed "revise_draft" fb iss sug) := by
  constructor
  · exact InstagramWorkflow.execute_action_other env ⟨"maybe", fb, iss, sug⟩
      research_data post_data topic (by dsimp only; decide)
      (by dsimp only; decide) (by dsimp only; decide)
  · unfold EditorInChiefAgent.parseReview
    dsimp only
    rw [if_neg (by decide), if_pos (by decide)]

/-- C8 (counterexample): when the drafter's `llm.invoke` call itself raises
(an internal failure of the Drafting Capability), `draft_post` does not
return an error artifact -- the exception propagates past the capability
boundary, refuting the claim for this failure mode. -/
theorem c8_draft_crash_counterexample :
    DrafterAgent.draft_post draftCrashEnv researchStub none =
      .error "llm failure" := rfl

/-- C8 (amended): when the drafter's generation call *returns* but its
response cannot be parsed as the required structure (unparseable JSON, or
a parse lacking the `"slides"` key), `draft_post` returns a well-formed
draft artifact with exactly one error-describing slide and a unit count of
one instead of raising; a failure of the generation call itself, however,
propagates past the capability boundary. -/
theorem c8_parse_failure_fallback (env : Env) (research_data : ResearchData)
    (g : Option String) (e : String) (resp : DraftResponse)
    (hresp : resp = DraftResponse.malformed e ∨ resp = DraftResponse.badShape e)
    (hllm : env.draftLLM research_data g = .ok resp) :
    ∃ p, DrafterAgent.draft_post env research_data g = .ok p ∧
      p.slides.length = 1 ∧ p.slide_count = 1 ∧ p.error = some e := by
  have hd : DrafterAgent.draft_post env research_data g =
      .ok (DrafterAgent.parseDraft env.maxSlides research_data resp) := by
    unfold DrafterAgent.draft_post
    rw [hllm]
  rcases hresp with h | h <;> subst h <;> exact ⟨_, hd, rfl, rfl, rfl⟩

/-- Witness for C8 (amended): a drafter whose LLM returns unparseable JSON
yields the one-slide error artifact. -/
theorem c8_parse_failure_witness :
    ∃ p, DrafterAgent.draft_post badJsonDraftEnv researchStub none = .ok p ∧
      p.slides.length = 1 ∧ p.slide_count = 1 ∧ p.error = some "bad json" :=
  c8_parse_failure_fallback badJsonDraftEnv researchStub none "bad json"
    (.malformed "bad json") (Or.inl rfl) rfl

end InstagramAgents

namespace InstagramAgents

namespace InstagramWorkflow

/-- C1 (counterexample): with `iterationLimit = 0` and a reviewer that
always returns `revise_draft`, the review step is still invoked exactly
once past Draft (the `draft → review` edge of the graph is unconditional),
so the run performs 1 review step, not the claimed 0. -/
theorem c1_zero_limit_counterexample :
    run_review_steps stubEnv 0 "topic" = .ok 1 ∧
    run_review_steps stubEnv 0 "topic" ≠ .ok 0 := by
  have h : run_review_steps stubEnv 0 "topic" = .ok 1 := by
    simp [run_review_steps, run_core, research_node, draft_node, review_loop,
      review_node, revise_node, finalize_node, review_decision_router,
      ResearcherAgent.research, ResearcherAgent.search_topic,
      DrafterAgent.draft_post, DrafterAgent.parseDraft,
      EditorInChiefAgent.review_post, EditorInChiefAgent.parseReview,
      EditorInChiefAgent.execute_action, EditorInChiefAgent.valid_decisions,
      stubEnv, initial_state, countWords]
  refine ⟨h, ?_⟩
  rw [h]
  intro hcontra
  injection hcontra with h0
  exact absurd h0 (by decide)

/-- C1 (amended): for every `iterationLimit ≥ 0` and every reviewer that
always returns decision `revise_draft` (with the other two `llm.invoke`
call sites returning), `run` terminates and performs exactly
`max iterationLimit 1` review steps -- i.e. exactly `iterationLimit` review
steps whenever the limit is at least 1, and exactly one review step when
the limit is 0, because the `draft → review` edge is unconditional; the
reported iteration count equals the same number. -/
theorem c1_adversarial_reviewer_termination (env : Env) (m : Nat)
    (topic : String)
    (hrev : ∀ p r, ∃ fb iss sug,
      env.reviewLLM p r = .ok (.parsed "revise_draft" fb iss sug))
    (hres : ∀ t f sr, ∃ c, env.researchLLM t f sr = .ok c)
    (hdr : ∀ r g, ∃ resp, env.draftLLM r g = .ok resp) :
    run_review_steps env m topic = .ok (max m 1) ∧
    ∃ res, run env m topic = .ok res ∧ res.iterations = max m 1 := by
  obtain ⟨rd, h1⟩ := research_node_total env hres (initial_state m topic)
  obtain ⟨pd, h2⟩ := draft_node_total env hdr
    { initial_state m topic with research_data := rd }
  obtain ⟨sf, hloop, hit, hmax⟩ := review_loop_always_revise env hrev hdr
    { { initial_state m topic with research_data := rd } with
      post_data := pd }
  have hloop' : review_loop env
      { { initial_state m topic with research_data := rd } with
        post_data := pd } = .ok (sf, max m 1) := hloop
  have hit' : sf.iteration = 0 + max m 1 := hit
  have hcore : run_core env m topic = .ok (sf, max m 1) := by
    unfold run_core
    rw [h1]
    dsimp only
    rw [h2]
    dsimp only
    exact hloop'
  refine ⟨?_, ⟨sf.final_post, sf.iteration, sf.research_data⟩, ?_, ?_⟩
  · unfold run_review_steps
    rw [hcore]
  · unfold run
    rw [hcore]
  · dsimp only
    omega

/-- Witness for C1 (amended): the stub environment with limit 2 performs
exactly 2 review steps and reports 2 iterations. -/
theorem c1_adversarial_reviewer_witness :
    run_review_steps stubEnv 2 "topic" = .ok (max 2 1) ∧
    ∃ res, run stubEnv 2 "topic" = .ok res ∧ res.iterations = max 2 1 :=
  c1_adversarial_reviewer_termination stubEnv 2 "topic"
    (fun _ _ => ⟨"needs work", [], [], rfl⟩)
    (fun _ _ _ => ⟨"research content", rfl⟩)
    (fun _ _ => ⟨.slides [slide1], rfl⟩)

/-- C3 (counterexample): when the researcher's `llm.invoke` raises, the
exception propagates out of `run` to the caller -- `run` has a failed
completion, refuting the claim that its only completion is a terminal
artifact. -/
theorem c3_run_error_counterexample :
    run researchCrashEnv 3 "topic" = .error "llm failure" := rfl

/-- C3 (amended): no parse failure or malformed content of any capability
can make `run` fail -- whenever the three `llm.invoke` call sites return
(with arbitrary, possibly unparseable content, and arbitrary search
behaviour), `run` returns a result record; but an exception raised by an
`llm.invoke` call itself escapes `run`. -/
theorem c3_run_total_when_llm_returns (env : Env) (m : Nat) (topic : String)
    (hrev : ∀ p r, ∃ resp, env.reviewLLM p r = .ok resp)
    (hres : ∀ t f sr, ∃ c, env.researchLLM t f sr = .ok c)
    (hdr : ∀ r g, ∃ resp, env.draftLLM r g = .ok resp) :
    ∃ res, run env m topic = .ok res := by
  obtain ⟨rd, h1⟩ := research_node_total env hres (initial_state m topic)
  obtain ⟨pd, h2⟩ := draft_node_total env hdr
    { initial_state m topic with research_data := rd }
  obtain ⟨out, hloop⟩ := review_loop_total env hrev hres hdr
    { { initial_state m topic with research_data := rd } with
      post_data := pd }
  obtain ⟨sf, k⟩ := out
  refine ⟨⟨sf.final_post, sf.iteration, sf.research_data⟩, ?_⟩
  unfold run run_core
  rw [h1]
  dsimp only
  rw [h2]
  dsimp only
  rw [hloop]

/-- Witness for C3 (amended): the stub environment never makes `run` fail. -/
theorem c3_run_total_witness :
    ∃ res, run stubEnv 1 "topic" = .ok res :=
  c3_run_total_when_llm_returns stubEnv 1 "topic"
    (fun _ _ => ⟨_, rfl⟩) (fun _ _ _ => ⟨_, rfl⟩) (fun _ _ => ⟨_, rfl⟩)

end InstagramWorkflow

end InstagramAgents
